import Mathlib

/-!
Shallow embedding of the auth-components session/token state machine
(`src/utils/session.ts`, `src/utils/refresh.ts`, `src/utils/auth.ts`,
`src/utils/dev-auth.ts`, `src/routes/callback.tsx`).

Times are `Int` milliseconds since the epoch; `now` (the JS `Date.now()`)
is passed explicitly.  JS `undefined`/`null` is `Option`, and JS string
falsiness (`!s` true for `undefined` and `""`) is modelled explicitly.
The host framework's signed-cookie codec (react-router `createCookie`)
is an external collaborator: its contract (serialize/parse a
tamper-evident value, with a falsy parse result for the empty
delete-cookie serialization) is modelled by the `CookieWire` type.
-/

namespace AuthComponents

/-- JS string-or-undefined falsiness: `!x` is true for `undefined` and `""`. -/
def jsFalsy : Option String → Bool
  | none => true
  | some s => s = ""

/-- JS `a || b` on string-or-undefined values: `b` when `a` is falsy. -/
def jsOr (a b : Option String) : Option String :=
  match a with
  | none => b
  | some s => if s = "" then b else some s

/-! ### COOKIE_CONFIG (session.ts lines 5-16) -/

/-- `COOKIE_CONFIG.SESSION_MAX_AGE`: maximum lifetime of the session cookie,
in seconds (source: `24 * 60 * 60`). -/
def SESSION_MAX_AGE : Int := 24 * 60 * 60

/-- `COOKIE_CONFIG.REFRESH_WINDOW`: time before token expiration when a
refresh is attempted, in milliseconds (source: `5 * 60 * 1000`). -/
def REFRESH_WINDOW : Int := 5 * 60 * 1000

/-- `COOKIE_CONFIG.AUTH_STATE_MAX_AGE`: lifetime of the OAuth state cookie,
in seconds (source: `60 * 60`). -/
def AUTH_STATE_MAX_AGE : Int := 60 * 60

/-! ### SessionData (session.ts lines 30-35) -/

/-- The `SessionData` interface: all four fields required. -/
structure SessionData where
  accessToken : String
  idToken : String
  refreshToken : String
  /-- ms timestamp at which the access token expires -/
  expiresAt : Int
deriving Repr, DecidableEq

/-- A session value as it comes back from `sessionCookie.parse`: untyped
JSON, each field possibly absent or of the wrong type (`none`). -/
structure RawSessionData where
  accessToken : Option String
  idToken : Option String
  refreshToken : Option String
  expiresAt : Option Int
deriving Repr, DecidableEq

/-- Typed view of a raw cookie payload; `some` exactly when all four
fields are present with the right type. -/
def toSession (r : RawSessionData) : Option SessionData :=
  match r.accessToken, r.idToken, r.refreshToken, r.expiresAt with
  | some a, some i, some rt, some e => some ⟨a, i, rt, e⟩
  | _, _, _, _ => none

/-- `hasValidSessionFields` (session.ts lines 68-90): null check plus the
four `typeof` checks. -/
def hasValidSessionFields (d : Option RawSessionData) : Bool :=
  match d with
  | none => false
  | some r =>
      r.accessToken.isSome && r.idToken.isSome &&
      r.refreshToken.isSome && r.expiresAt.isSome

/-- The raw (wire) image of a typed session: every field present. -/
def rawOfSession (s : SessionData) : RawSessionData :=
  ⟨some s.accessToken, some s.idToken, some s.refreshToken, some s.expiresAt⟩

/-! ### Cookie wire model

The react-router signed cookie is external; the spec's contract for it is
a reversible tamper-evident mapping.  `CookieWire.empty` is the
serialization of `""` with `maxAge: 0` (the delete-cookie header), whose
parse result `""` is falsy in `getSession`'s `if (!data)` check. -/

/-- What a `Set-Cookie` header produced by `sessionCookie.serialize`
carries. -/
inductive CookieWire where
  /-- `serialize("", { maxAge: 0 })`: the delete-cookie header. -/
  | empty : CookieWire
  /-- `serialize(sessionData)`: the signed JSON payload. -/
  | session (d : RawSessionData) : CookieWire
deriving Repr, DecidableEq

/-- `createSessionHeader` (session.ts lines 155-163): a `null` session
serializes `""` with `maxAge: 0`; otherwise the session JSON. -/
def createSessionHeader : Option SessionData → CookieWire
  | none => .empty
  | some s => .session (rawOfSession s)

/-- `sessionCookie.parse` on the request's Cookie header followed by
`getSession`'s `if (!data)` falsiness check: no cookie or an invalid
signature parses to `null`; the empty serialization parses to the falsy
`""`. -/
def parseCookie : Option CookieWire → Option RawSessionData
  | none => none
  | some .empty => none
  | some (.session d) => some d

/-! ### Session predicates (session.ts lines 93-127) -/

/-- `isRefreshable` (session.ts lines 93-97): expired but still within
the cookie max age: `session.expiresAt > now - SESSION_MAX_AGE * 1000`. -/
def isRefreshable (s : SessionData) (now : Int) : Bool :=
  s.expiresAt > now - SESSION_MAX_AGE * 1000

/-- `isValidSession` (session.ts lines 100-118) on a field-checked
session: `session.expiresAt > now`.  (The function's own
`hasValidSessionFields` guard is the `toSession`/`hasValidSessionFields`
step at its call sites, where the argument is already known non-null.) -/
def isValidSession (s : SessionData) (now : Int) : Bool :=
  s.expiresAt > now

/-- `sessionNeedsRefresh` (session.ts lines 121-127): false for `null`,
otherwise `expiresAt - now <= REFRESH_WINDOW`. -/
def sessionNeedsRefresh (s : Option SessionData) (now : Int) : Bool :=
  match s with
  | none => false
  | some s => s.expiresAt - now ≤ REFRESH_WINDOW

/-- `getSession` (session.ts lines 130-152), as a function of the cookie
carried by the request: parse, field-check, then return expired-but-
refreshable or valid sessions, else `null`. -/
def getSession (cookie : Option CookieWire) (now : Int) : Option SessionData :=
  match parseCookie cookie with
  | none => none
  | some raw =>
      if ¬ hasValidSessionFields (some raw) then none
      else
        match toSession raw with
        | none => none
        | some s =>
            if ¬ isValidSession s now ∧ isRefreshable s now then some s
            else if isValidSession s now then some s
            else none

/-! ### The spec's session state machine (spec section 4.3)

`classify` does not exist as a named function in the source; it is the
spec's name for the decision structure realised by `isValidSession` and
`isRefreshable`, and is defined here directly from those code
predicates. -/

/-- The spec's session states. -/
inductive SessionState where
  | Absent : SessionState
  | Valid : SessionState
  | Refreshable : SessionState
  | Dead : SessionState
deriving Repr, DecidableEq

/-- `classify` (spec section 4.3) in terms of the code predicates
`isValidSession` and `isRefreshable`. -/
def classify (s : Option SessionData) (now : Int) : SessionState :=
  match s with
  | none => .Absent
  | some s =>
      if isValidSession s now then .Valid
      else if isRefreshable s now then .Refreshable
      else .Dead

/-! ### Token responses and session construction (auth.ts, session.ts) -/

/-- The `TokenResponse` shape as the code uses it (auth.ts lines 13-20).
The TS interface declares every field required; the one absence the code
defends against (session.ts line 44) is `refresh_token`, so that field is
`Option`. -/
structure TokenResponse where
  access_token : String
  id_token : String
  refresh_token : Option String
  expires_in : Int
deriving Repr, DecidableEq

/-- `createSessionData` (session.ts lines 38-65).  `refreshTokenDefault`
is the optional second parameter; `tokens.refresh_token ||
refreshTokenDefault` with JS falsiness, and a falsy result throws
(`none`). `expiresAt = Date.now() + tokens.expires_in * 1000`. -/
def createSessionData (tokens : TokenResponse) (now : Int)
    (refreshTokenDefault : Option String) : Option SessionData :=
  let expiresAt := now + tokens.expires_in * 1000
  let refreshToken := jsOr tokens.refresh_token refreshTokenDefault
  if jsFalsy refreshToken then none
  else
    match refreshToken with
    | none => none
    | some rt => some ⟨tokens.access_token, tokens.id_token, rt, expiresAt⟩

/-! ### Token refresh coordination (refresh.ts) -/

/-- Outcome of the `refreshTokens` network call (auth.ts lines 140-170):
either the parsed JSON of a success response, or a throw (network error,
non-ok HTTP status, or an unreadable body). -/
inductive RefreshCall where
  | success (tokens : TokenResponse) : RefreshCall
  | failure : RefreshCall
deriving Repr, DecidableEq

/-- The `AuthLoaderData` result shape (loader.ts lines 6-9 /
refresh.ts return type): a session and an optional `Set-Cookie`
header. -/
structure AuthLoaderData where
  session : Option SessionData
  headers : Option CookieWire
deriving Repr, DecidableEq

/-- `refreshSessionIfNeeded` (refresh.ts lines 6-60): return the session
unchanged when absent or not due for refresh; otherwise attempt the
refresh (outcome `call`), building the new session with the existing
`session.refreshToken` as fallback; any throw — from the call or from
`createSessionData` — is caught and clears the session with a
delete-cookie header. -/
def refreshSessionIfNeeded (session : Option SessionData) (now : Int)
    (call : RefreshCall) : AuthLoaderData :=
  match session with
  | none => ⟨none, none⟩
  | some s =>
      if ¬ sessionNeedsRefresh (some s) now then ⟨some s, none⟩
      else
        match call with
        | .failure => ⟨none, some (createSessionHeader none)⟩
        | .success tokens =>
            match createSessionData tokens now (some s.refreshToken) with
            | none => ⟨none, some (createSessionHeader none)⟩
            | some newSession =>
                ⟨some newSession, some (createSessionHeader (some newSession))⟩

/-! ### Authorization handshake (auth.ts, routes/callback.tsx) -/

/-- `verifyState` (auth.ts lines 89-93): parse the state cookie
(`savedState`, `none` when the cookie is absent or its signature
invalid) and compare with strict equality to the `state` query
parameter. -/
def verifyState (savedState : Option String) (state : String) : Bool :=
  savedState = some state

/-- Outcome of the `exchangeCodeForTokens` network call (auth.ts lines
96-127): the parsed JSON of a success response, or a throw. -/
inductive ExchangeCall where
  | success (tokens : TokenResponse) : ExchangeCall
  | failure : ExchangeCall
deriving Repr, DecidableEq

/-- What the callback route loader produces: a thrown error, or a
redirect to a URL with an optional `Set-Cookie` header. -/
inductive LoaderResult where
  | thrown (msg : String) : LoaderResult
  | redirect (url : String) (cookie : Option CookieWire) : LoaderResult
deriving Repr, DecidableEq

/-- The callback route `loader` (routes/callback.tsx lines 6-42),
instrumented: the second component records whether the token exchange
endpoint was called.  `code`/`state` are the query parameters,
`savedState` the parsed state cookie, `configOk` whether
`getAuth0Config` finds all required environment variables (it throws
otherwise, inside the `try`), `exchange` the outcome of the exchange
call. -/
def callbackLoader (code state savedState : Option String) (configOk : Bool)
    (exchange : ExchangeCall) (now : Int) : LoaderResult × Bool :=
  if jsFalsy code ∨ jsFalsy state then
    (.thrown "Invalid callback parameters", false)
  else
    match state with
    | none => (.thrown "Invalid callback parameters", false)
    | some st =>
        if ¬ verifyState savedState st then
          (.redirect "/login?error=invalid_state" none, false)
        else if ¬ configOk then
          (.redirect "/login?error=auth_callback_failed" none, false)
        else
          match exchange with
          | .failure => (.redirect "/login?error=auth_callback_failed" none, true)
          | .success tokens =>
              match createSessionData tokens now none with
              | none => (.redirect "/login?error=auth_callback_failed" none, true)
              | some session =>
                  (.redirect "/" (some (createSessionHeader (some session))), true)

/-! ### JWT parsing (jwt.ts, `parseJwt`)

`atob`, `JSON.parse` and the `decodeURIComponent` byte-to-UTF-8 step are
host platform primitives; they enter the model as parameters returning
`Option` (`none` = the primitive throws, caught by `parseJwt`'s
`try`/`catch`).  `headerEnc` is `JSON.parse` of the header followed by
the truthiness of `.enc`; `payloadParse` is the percent-decode plus
`JSON.parse` of the payload bytes. -/

/-- The decoded claim set, as far as the session machinery reads it. -/
structure JwtPayload where
  exp : Option Int
deriving Repr, DecidableEq

/-- JS `String.prototype.split` with a single-character separator, on
character lists: always returns at least one (possibly empty) piece. -/
def splitChars (sep : Char) : List Char → List (List Char)
  | [] => [[]]
  | c :: cs =>
      let rest := splitChars sep cs
      if c = sep then [] :: rest
      else
        match rest with
        | [] => [[c]]
        | piece :: pieces => (c :: piece) :: pieces

/-- JS `token.split(sep)` for a one-character separator. -/
def jsSplit (s : String) (sep : Char) : List String :=
  (splitChars sep s.toList).map List.asString

/-- The two global replaces turning base64url into base64: dash to plus,
underscore to slash. -/
def base64UrlToBase64 (s : String) : String :=
  s.map fun c => if c = '-' then '+' else if c = '_' then '/' else c

/-- `parseJwt` (jwt.ts lines 180-203): split on `.`, base64-decode and
JSON-parse the header, refuse encrypted tokens (`header.enc` truthy),
require a non-falsy second segment (`if (!base64Url) return null` covers
both an undefined second element and `""`), then decode and parse the
payload; every failure is caught and collapses to `null`. -/
def parseJwt (atobF : String → Option String)
    (headerEnc : String → Option Bool)
    (payloadParse : String → Option JwtPayload)
    (token : String) : Option JwtPayload :=
  match jsSplit token '.' with
  | [] => none
  | part0 :: rest =>
      match atobF part0 with
      | none => none
      | some headerStr =>
          match headerEnc headerStr with
          | none => none
          | some true => none
          | some false =>
              match rest with
              | [] => none
              | base64Url :: _ =>
                  if base64Url = "" then none
                  else
                    match atobF (base64UrlToBase64 base64Url) with
                    | none => none
                    | some bytes => payloadParse bytes

/-! ### Dev-mode provider (dev-auth.ts) -/

/-- `365 * 24 * 60 * 60 * 1000` (dev-auth.ts line 63). -/
def oneYear : Int := 365 * 24 * 60 * 60 * 1000

/-- `createDevSession` (dev-auth.ts lines 62-71).  `mockIdToken` stands
for `createMockJwt()`'s output (a `btoa`-encoded placeholder JWT — the
`btoa` platform primitive is external); `expiresAt` is `Date.now() +
oneYear`. -/
def createDevSession (now : Int) (mockIdToken : String) : SessionData :=
  ⟨"dev-access-token", mockIdToken, "dev-refresh-token", now + oneYear⟩

/-! ### Environment / dev-mode gate (dev-auth.ts lines 4-39) -/

/-- An environment map (`import.meta.env` or `process.env`): the set
of variables present, looked up by name. -/
structure EnvMap where
  vars : List (String × String)
deriving Repr, DecidableEq

/-- `env[name]`: `undefined` when absent. -/
def lookupVar (m : EnvMap) (name : String) : Option String :=
  (m.vars.find? fun p => p.1 = name).map Prod.snd

/-- The ambient JS environment: `import.meta.env` when the bundler
provides it, and `process.env` when running under Node. `none` means the
corresponding guard (`typeof import.meta !== 'undefined' &&
import.meta.env`, `typeof process !== 'undefined' && process.env`)
fails. -/
structure JsEnv where
  importMeta : Option EnvMap
  processEnv : Option EnvMap
deriving Repr, DecidableEq

/-- `getEnv` (dev-auth.ts lines 4-14): `import.meta.env[name]` when
available (no fallthrough on a missing variable), else
`process.env[name]`, else `undefined`. -/
def getEnv (e : JsEnv) (name : String) : Option String :=
  match e.importMeta with
  | some m => lookupVar m name
  | none =>
      match e.processEnv with
      | some m => lookupVar m name
      | none => none

/-- JS `x || 'development'` on a string-or-undefined value. -/
def modeOrDefault (o : Option String) : String :=
  match o with
  | none => "development"
  | some s => if s = "" then "development" else s

/-- `getMode` (dev-auth.ts lines 17-25): `import.meta.env.MODE ||
'development'` when the bundler env is available, else
`process.env.NODE_ENV || 'development'`, else `'development'`. -/
def getMode (e : JsEnv) : String :=
  match e.importMeta with
  | some m => modeOrDefault (lookupVar m "MODE")
  | none =>
      match e.processEnv with
      | some m => modeOrDefault (lookupVar m "NODE_ENV")
      | none => "development"

/-- `shouldSkipAuth` (dev-auth.ts lines 28-39): in development mode skip
unless `SKIP_AUTH` is exactly `"false"`; elsewhere skip only when it is
exactly `"true"`. -/
def shouldSkipAuth (e : JsEnv) : Bool :=
  let nodeEnv := getMode e
  let skipAuth := getEnv e "SKIP_AUTH"
  if nodeEnv = "development" then ¬ (skipAuth = some "false")
  else skipAuth = some "true"

/-! ## Helper lemmas -/

/-- Field presence on the wire agrees with the typed view. -/
theorem hasValidSessionFields_iff_toSession (r : RawSessionData) :
    hasValidSessionFields (some r) = true ↔ (toSession r).isSome := by
  cases r with
  | mk a i rt e =>
      cases a <;> cases i <;> cases rt <;> cases e <;>
        simp [hasValidSessionFields, toSession]

/-- Reading back the wire image of a typed session. -/
theorem toSession_rawOfSession (s : SessionData) :
    toSession (rawOfSession s) = some s := by
  cases s; rfl

/-- On the wire image of a typed session, `getSession` returns the
session exactly when it is valid or (expired but) refreshable. -/
theorem getSession_rawOfSession (s : SessionData) (now : Int) :
    getSession (some (CookieWire.session (rawOfSession s))) now =
      if s.expiresAt > now ∨ s.expiresAt > now - SESSION_MAX_AGE * 1000
      then some s else none := by
  simp only [getSession, parseCookie, toSession_rawOfSession]
  simp only [hasValidSessionFields, rawOfSession, Option.isSome_some,
    Bool.and_self, not_true_eq_false, if_false, isValidSession, isRefreshable,
    decide_eq_true_eq]
  split_ifs <;> first | rfl | omega

/-! ## Claims -/

/-- C3: for every session value with all four fields present, if
`expiresAt <= now` but `expiresAt > now - maxAge` (the cookie lifetime
ceiling in milliseconds) the session classifies as Refreshable and
`getSession` returns it; if `expiresAt` is more than `maxAge` in the
past it classifies as Dead and `getSession` returns `null`. -/
theorem c3_refreshable_and_dead_classification (s : SessionData) (now : Int) :
    (s.expiresAt ≤ now → now - SESSION_MAX_AGE * 1000 < s.expiresAt →
      classify (some s) now = SessionState.Refreshable ∧
      getSession (some (CookieWire.session (rawOfSession s))) now = some s) ∧
    (s.expiresAt < now - SESSION_MAX_AGE * 1000 →
      classify (some s) now = SessionState.Dead ∧
      getSession (some (CookieWire.session (rawOfSession s))) now = none) := by
  constructor
  · intro h1 h2
    have hv : ¬ s.expiresAt > now := by omega
    have hr : s.expiresAt > now - SESSION_MAX_AGE * 1000 := h2
    refine ⟨?_, ?_⟩
    · simp [classify, isValidSession, isRefreshable, hv, hr]
    · rw [getSession_rawOfSession]; simp [hv, hr]
  · intro h1
    have hv : ¬ s.expiresAt > now := by
      simp only [SESSION_MAX_AGE] at h1 ⊢
      omega
    have hr : ¬ s.expiresAt > now - SESSION_MAX_AGE * 1000 := by omega
    refine ⟨?_, ?_⟩
    · simp [classify, isValidSession, isRefreshable, hv, hr]
    · rw [getSession_rawOfSession]; simp [hv, hr]

/-- Witness for C3 at concrete inputs: a session expired by one second
(within the 24h ceiling) is Refreshable and read back; one expired for
more than 24h is Dead and dropped. -/
theorem c3_witness :
    (classify (some ⟨"a", "i", "r", 999000⟩) 1000000 = SessionState.Refreshable ∧
      getSession (some (CookieWire.session (rawOfSession ⟨"a", "i", "r", 999000⟩)))
        1000000 = some ⟨"a", "i", "r", 999000⟩) ∧
    (classify (some ⟨"a", "i", "r", 0⟩) 1000000000000 = SessionState.Dead ∧
      getSession (some (CookieWire.session (rawOfSession ⟨"a", "i", "r", 0⟩)))
        1000000000000 = none) :=
  ⟨(c3_refreshable_and_dead_classification ⟨"a", "i", "r", 999000⟩ 1000000).1
      (by decide) (by decide),
    (c3_refreshable_and_dead_classification ⟨"a", "i", "r", 0⟩ 1000000000000).2
      (by decide)⟩

/-- C4 counterexample: the claim's biconditional fails on a Dead
session.  A session whose `expiresAt` lies more than `maxAge` in the
past is neither Valid nor Refreshable, yet `sessionNeedsRefresh` still
returns `true` for it (`expiresAt - now` is far below the refresh
window), so "needsRefresh is true iff (Valid and within window) or
Refreshable" is false for every session. -/
theorem c4_counterexample :
    sessionNeedsRefresh (some ⟨"a", "i", "r", 0⟩) 1000000000000 = true ∧
    classify (some ⟨"a", "i", "r", 0⟩) 1000000000000 ≠ SessionState.Valid ∧
    classify (some ⟨"a", "i", "r", 0⟩) 1000000000000 ≠ SessionState.Refreshable := by
  refine ⟨by decide, by decide, by decide⟩

/-- C4 (amended): for every session that is not Dead — i.e. Valid or
Refreshable, the only non-null states `getSession` lets through —
`sessionNeedsRefresh` is true iff the session is Valid with
`expiresAt - now <= REFRESH_WINDOW`, or Refreshable; for Dead sessions
it also returns true. -/
theorem c4_needsRefresh_characterisation (s : SessionData) (now : Int)
    (h : classify (some s) now ≠ SessionState.Dead) :
    (sessionNeedsRefresh (some s) now = true ↔
      (classify (some s) now = SessionState.Valid ∧
        s.expiresAt - now ≤ REFRESH_WINDOW) ∨
      classify (some s) now = SessionState.Refreshable) := by
  by_cases hv : s.expiresAt > now <;>
    by_cases hr : s.expiresAt > now - SESSION_MAX_AGE * 1000 <;>
      (simp [classify, isValidSession, isRefreshable, sessionNeedsRefresh,
        hv, hr, REFRESH_WINDOW] at h ⊢; try omega)

/-- Witness for C4 (amended): a Refreshable session (expired one second
ago) needs refresh. -/
theorem c4_witness :
    sessionNeedsRefresh (some ⟨"a", "i", "r", 999000⟩) 1000000 = true ↔
      (classify (some ⟨"a", "i", "r", 999000⟩) 1000000 = SessionState.Valid ∧
        (999000 : Int) - 1000000 ≤ REFRESH_WINDOW) ∨
      classify (some ⟨"a", "i", "r", 999000⟩) 1000000 = SessionState.Refreshable :=
  c4_needsRefresh_characterisation ⟨"a", "i", "r", 999000⟩ 1000000 (by decide)

/-- C7 counterexample: the session cookie `maxAge` ceiling is not 7
days; `COOKIE_CONFIG.SESSION_MAX_AGE` is `24 * 60 * 60` seconds (24
hours), a fixed constant. -/
theorem c7_counterexample : SESSION_MAX_AGE ≠ 7 * 24 * 60 * 60 := by decide

/-- C7 (amended): the session cookie `maxAge` ceiling is a fixed 24
hours (86400 seconds), not configurable; it is independent of the
token's `expiresAt`, and any session whose `expiresAt` lies within the
ceiling of `now` — including already-expired ones — is still read back
from the cookie by `getSession`. -/
theorem c7_max_age_ceiling :
    SESSION_MAX_AGE = 24 * 60 * 60 ∧
    ∀ (s : SessionData) (now : Int),
      now - SESSION_MAX_AGE * 1000 < s.expiresAt →
      getSession (some (CookieWire.session (rawOfSession s))) now = some s := by
  refine ⟨rfl, fun s now h => ?_⟩
  rw [getSession_rawOfSession]
  simp [h]

/-- Witness for C7 (amended) at a concrete expired-but-within-ceiling
session. -/
theorem c7_witness :
    getSession (some (CookieWire.session (rawOfSession ⟨"a", "i", "r", 999000⟩)))
      1000000 = some ⟨"a", "i", "r", 999000⟩ :=
  c7_max_age_ceiling.2 ⟨"a", "i", "r", 999000⟩ 1000000 (by decide)

/-- C8: serializing a valid session (all four fields, `expiresAt > now`)
with `createSessionHeader` and parsing it back with `getSession` on a
request carrying that cookie yields the original session,
field-for-field. -/
theorem c8_write_read_roundtrip (s : SessionData) (now : Int)
    (h : now < s.expiresAt) :
    getSession (some (createSessionHeader (some s))) now = some s := by
  show getSession (some (CookieWire.session (rawOfSession s))) now = some s
  rw [getSession_rawOfSession]
  simp [h]

/-- Witness for C8 at a concrete valid session. -/
theorem c8_witness :
    getSession (some (createSessionHeader (some ⟨"a", "i", "r", 2000⟩))) 1000 =
      some ⟨"a", "i", "r", 2000⟩ :=
  c8_write_read_roundtrip ⟨"a", "i", "r", 2000⟩ 1000 (by decide)

/-- C9 counterexample: the dev-mode session's lifetime is not "a few
hours": `createDevSession` sets `expiresAt` a full year past `now`
(31536000000 ms), far beyond even a 12-hour bound. -/
theorem c9_counterexample :
    (createDevSession 0 "mock").expiresAt = 31536000000 ∧
    ¬ ((createDevSession 0 "mock").expiresAt - 0 ≤ 12 * 60 * 60 * 1000) := by
  refine ⟨by decide, by decide⟩

/-- C9 (amended): every dev-mode session expires exactly one year
(365 days, 31536000000 ms) after `now` — deliberately permanent for
development purposes, per the source comment "Create a permanent dev
session (never expires in practice)". -/
theorem c9_dev_session_one_year (now : Int) (mockIdToken : String) :
    (createDevSession now mockIdToken).expiresAt = now + 365 * 24 * 60 * 60 * 1000 := by
  simp [createDevSession, oneYear]

/-- C1: whenever the callback's `state` query parameter does not equal
the state stored in the signed state cookie (including a missing or
unverifiable cookie, where the parse yields `null`), the callback loader
returns a redirect to `/login?error=invalid_state` without ever calling
the token exchange endpoint; and conversely the exchange endpoint is
only ever called after `verifyState` succeeds. -/
theorem c1_csrf_state_guard :
    (∀ (code st : String) (savedState : Option String) (configOk : Bool)
        (ex : ExchangeCall) (now : Int),
      code ≠ "" → st ≠ "" → verifyState savedState st = false →
      callbackLoader (some code) (some st) savedState configOk ex now =
        (LoaderResult.redirect "/login?error=invalid_state" none, false)) ∧
    (∀ (code state savedState : Option String) (configOk : Bool)
        (ex : ExchangeCall) (now : Int),
      (callbackLoader code state savedState configOk ex now).2 = true →
      ∃ st, state = some st ∧ verifyState savedState st = true) := by
  constructor
  · intro code st savedState configOk ex now hc hs hmismatch
    simp [callbackLoader, jsFalsy, hc, hs, hmismatch]
  · intro code state savedState configOk ex now hcalled
    by_cases hc : jsFalsy code = true ∨ jsFalsy state = true
    · simp [callbackLoader, hc] at hcalled
    · cases state with
      | none => simp [callbackLoader, jsFalsy] at hc
      | some st =>
          refine ⟨st, rfl, ?_⟩
          by_cases hv : verifyState savedState st = true
          · exact hv
          · rw [callbackLoader.eq_def] at hcalled
            simp only [if_neg hc] at hcalled
            simp [hv] at hcalled

/-- Witness for C1: the spec scenario — `code="x"`, `state="s1"`, stored
state cookie `"s2"` — redirects to `/login?error=invalid_state` and does
not call the exchange endpoint. -/
theorem c1_witness :
    callbackLoader (some "x") (some "s1") (some "s2") true ExchangeCall.failure 0 =
      (LoaderResult.redirect "/login?error=invalid_state" none, false) :=
  c1_csrf_state_guard.1 "x" "s1" (some "s2") true ExchangeCall.failure 0
    (by decide) (by decide) (by decide)

/-- C2: for a session due for refresh, any failure of the refresh
attempt — a thrown call (network error, non-success HTTP status,
unreadable body) or a token response from which `createSessionData`
cannot build a session — yields `{session: null}` with a `Set-Cookie`
header carrying the empty `maxAge=0` delete-cookie serialization; never
a partial or stale session. -/
theorem c2_refresh_failure_clears_session (s : SessionData) (now : Int)
    (call : RefreshCall)
    (hneed : sessionNeedsRefresh (some s) now = true)
    (hfail : call = RefreshCall.failure ∨
      ∃ t, call = RefreshCall.success t ∧
        createSessionData t now (some s.refreshToken) = none) :
    refreshSessionIfNeeded (some s) now call =
      ⟨none, some CookieWire.empty⟩ := by
  rcases hfail with hfail | ⟨t, hcall, hbuild⟩
  · subst hfail
    simp [refreshSessionIfNeeded, hneed, createSessionHeader]
  · subst hcall
    simp [refreshSessionIfNeeded, hneed, hbuild, createSessionHeader]

/-- Witness for C2: an expired session whose refresh call throws is
cleared with a delete-cookie header. -/
theorem c2_witness :
    refreshSessionIfNeeded (some ⟨"a", "i", "r", 0⟩) 1000 RefreshCall.failure =
      ⟨none, some CookieWire.empty⟩ :=
  c2_refresh_failure_clears_session ⟨"a", "i", "r", 0⟩ 1000 RefreshCall.failure
    (by decide) (Or.inl rfl)

/-- C5: `createSessionData` takes the response's `refresh_token` when it
is present (non-empty), falls back to the caller-supplied prior refresh
token otherwise, and fails (`none`, the thrown `'No refresh token
available'`) when neither is usable; and because the callback loader
passes no fallback, a state-verified code exchange whose response lacks
`refresh_token` fails session construction and redirects to
`/login?error=auth_callback_failed`. -/
theorem c5_refresh_token_fallback :
    (∀ (t : TokenResponse) (now : Int) (fb : Option String) (rt : String),
      t.refresh_token = some rt → rt ≠ "" →
      createSessionData t now fb =
        some ⟨t.access_token, t.id_token, rt, now + t.expires_in * 1000⟩) ∧
    (∀ (t : TokenResponse) (now : Int) (f : String),
      jsFalsy t.refresh_token = true → f ≠ "" →
      createSessionData t now (some f) =
        some ⟨t.access_token, t.id_token, f, now + t.expires_in * 1000⟩) ∧
    (∀ (t : TokenResponse) (now : Int) (fb : Option String),
      jsFalsy t.refresh_token = true → jsFalsy fb = true →
      createSessionData t now fb = none) ∧
    (∀ (code st : String) (savedState : Option String) (t : TokenResponse)
        (now : Int),
      code ≠ "" → st ≠ "" → verifyState savedState st = true →
      t.refresh_token = none →
      callbackLoader (some code) (some st) savedState true
          (ExchangeCall.success t) now =
        (LoaderResult.redirect "/login?error=auth_callback_failed" none, true)) := by
  refine ⟨?_, ?_, ?_, ?_⟩
  · intro t now fb rt hrt hne
    simp [createSessionData, jsOr, jsFalsy, hrt, hne]
  · intro t now f hfalsy hne
    cases hrt : t.refresh_token with
    | none => simp [createSessionData, jsOr, jsFalsy, hrt, hne]
    | some r =>
        have hr : r = "" := by simpa [jsFalsy, hrt] using hfalsy
        simp [createSessionData, jsOr, jsFalsy, hrt, hr, hne]
  · intro t now fb hfalsy hfb
    cases hrt : t.refresh_token with
    | none =>
        cases hfb2 : fb with
        | none => simp [createSessionData, jsOr, jsFalsy, hrt]
        | some f =>
            have hf : f = "" := by simpa [jsFalsy, hfb2] using hfb
            simp [createSessionData, jsOr, jsFalsy, hrt, hf]
    | some r =>
        have hr : r = "" := by simpa [jsFalsy, hrt] using hfalsy
        cases hfb2 : fb with
        | none => simp [createSessionData, jsOr, jsFalsy, hrt, hr]
        | some f =>
            have hf : f = "" := by simpa [jsFalsy, hfb2] using hfb
            simp [createSessionData, jsOr, jsFalsy, hrt, hr, hf]
  · intro code st savedState t now hc hs hv hrt
    simp [callbackLoader, jsFalsy, hc, hs, hv, createSessionData, jsOr, hrt]

/-- Witness for C5: the three `createSessionData` behaviours and the
callback construction failure, each at a concrete input. -/
theorem c5_witness :
    createSessionData ⟨"a", "i", some "new", 3600⟩ 0 (some "old") =
        some ⟨"a", "i", "new", 3600000⟩ ∧
    createSessionData ⟨"a", "i", none, 3600⟩ 0 (some "old") =
        some ⟨"a", "i", "old", 3600000⟩ ∧
    createSessionData ⟨"a", "i", none, 3600⟩ 0 none = none ∧
    callbackLoader (some "x") (some "s1") (some "s1") true
        (ExchangeCall.success ⟨"a", "i", none, 3600⟩) 0 =
      (LoaderResult.redirect "/login?error=auth_callback_failed" none, true) :=
  ⟨c5_refresh_token_fallback.1 ⟨"a", "i", some "new", 3600⟩ 0 (some "old") "new"
      rfl (by decide),
    c5_refresh_token_fallback.2.1 ⟨"a", "i", none, 3600⟩ 0 "old"
      (by decide) (by decide),
    c5_refresh_token_fallback.2.2.1 ⟨"a", "i", none, 3600⟩ 0 none
      (by decide) (by decide),
    c5_refresh_token_fallback.2.2.2 "x" "s1" (some "s1") ⟨"a", "i", none, 3600⟩ 0
      (by decide) (by decide) (by decide) rfl⟩

/-- C6 counterexample: the callback loader does not collapse bad query
parameters to null/absent state — a request with a missing `code` query
parameter throws an `Invalid callback parameters` error to its caller
(routes/callback.tsx line 13), so "the handling operation never raises
an exception to its caller" is false for the callback loader. -/
theorem c6_counterexample :
    callbackLoader none (some "s") none true ExchangeCall.failure 0 =
      (LoaderResult.thrown "Invalid callback parameters", false) := by
  decide

/-- C6 (amended): an absent or malformed session cookie, and a session
cookie missing any of the four required fields, collapse to `null` in
`getSession`; `parseJwt` returns a payload only when every decoding step
succeeds, so any structurally invalid token (any failing step, or an
encrypted header) collapses to `null`; but missing `code` or `state`
callback query parameters make the loader throw an `Invalid callback
parameters` error to its caller — a hard failure, not a null-collapse. -/
theorem c6_malformed_input_handling :
    (∀ now : Int, getSession none now = none) ∧
    (∀ now : Int, getSession (some CookieWire.empty) now = none) ∧
    (∀ (raw : RawSessionData) (now : Int), toSession raw = none →
      getSession (some (CookieWire.session raw)) now = none) ∧
    (∀ (atobF : String → Option String) (headerEnc : String → Option Bool)
        (payloadParse : String → Option JwtPayload) (token : String)
        (r : JwtPayload),
      parseJwt atobF headerEnc payloadParse token = some r →
      ∃ part0 payloadB64 tailParts headerStr bytes,
        jsSplit token '.' = part0 :: payloadB64 :: tailParts ∧
        atobF part0 = some headerStr ∧
        headerEnc headerStr = some false ∧
        payloadB64 ≠ "" ∧
        atobF (base64UrlToBase64 payloadB64) = some bytes ∧
        payloadParse bytes = some r) ∧
    (∀ (code state savedState : Option String) (configOk : Bool)
        (ex : ExchangeCall) (now : Int),
      jsFalsy code = true ∨ jsFalsy state = true →
      callbackLoader code state savedState configOk ex now =
        (LoaderResult.thrown "Invalid callback parameters", false)) := by
  refine ⟨?_, ?_, ?_, ?_, ?_⟩
  · intro now; rfl
  · intro now; rfl
  · intro raw now hfields
    have h : hasValidSessionFields (some raw) = false := by
      have := (hasValidSessionFields_iff_toSession raw).not
      simp [hfields] at this
      simpa using this
    simp [getSession, parseCookie, h]
  · intro atobF headerEnc payloadParse token r hsome
    rw [parseJwt.eq_def] at hsome
    cases hSplit : jsSplit token '.' with
    | nil => simp [hSplit] at hsome
    | cons part0 rest =>
        simp only [hSplit] at hsome
        cases hHead : atobF part0 with
        | none => simp [hHead] at hsome
        | some headerStr =>
            simp only [hHead] at hsome
            cases hEnc : headerEnc headerStr with
            | none => simp [hEnc] at hsome
            | some b =>
                cases b with
                | true => simp [hEnc] at hsome
                | false =>
                    simp only [hEnc] at hsome
                    cases rest with
                    | nil => simp at hsome
                    | cons payloadB64 tailParts =>
                        by_cases hEmpty : payloadB64 = ""
                        · simp [hEmpty] at hsome
                        · simp only [if_neg hEmpty] at hsome
                          cases hBytes : atobF (base64UrlToBase64 payloadB64) with
                          | none => simp [hBytes] at hsome
                          | some bytes =>
                              simp only [hBytes] at hsome
                              exact ⟨part0, payloadB64, tailParts, headerStr,
                                bytes, rfl, hHead, hEnc, hEmpty, hBytes, hsome⟩
  · intro code state savedState configOk ex now hfalsy
    rw [callbackLoader.eq_def]
    simp [hfalsy]

/-- Witness for C6 (amended), at concrete inputs: a request with no
cookie yields no session; a cookie missing the refresh token yields no
session; `parseJwt` inverted on a trivially successful decode; a
callback with a missing `state` parameter throws. -/
theorem c6_witness :
    getSession none 0 = none ∧
    getSession (some (CookieWire.session ⟨some "a", some "i", none, some 0⟩)) 0 =
      none ∧
    (∃ part0 payloadB64 tailParts headerStr bytes,
      jsSplit "h.p" '.' = part0 :: payloadB64 :: tailParts ∧
      (fun s => some s) part0 = some headerStr ∧
      (fun (_ : String) => some false) headerStr = some false ∧
      payloadB64 ≠ "" ∧
      (fun s => some s) (base64UrlToBase64 payloadB64) = some bytes ∧
      (fun (_ : String) => some (⟨none⟩ : JwtPayload)) bytes =
        some (⟨none⟩ : JwtPayload)) ∧
    callbackLoader (some "x") none none true ExchangeCall.failure 0 =
      (LoaderResult.thrown "Invalid callback parameters", false) :=
  ⟨c6_malformed_input_handling.1 0,
    c6_malformed_input_handling.2.2.1 ⟨some "a", some "i", none, some 0⟩ 0 rfl,
    c6_malformed_input_handling.2.2.2.1 (fun s => some s) (fun _ => some false)
      (fun _ => some ⟨none⟩) "h.p" ⟨none⟩ (by decide),
    c6_malformed_input_handling.2.2.2.2 (some "x") none none true
      ExchangeCall.failure 0 (Or.inr rfl)⟩

/-- C10: when neither a bundler `MODE` nor a `NODE_ENV` value is set,
`getMode` falls back to `'development'`, and `shouldSkipAuth` then
returns `true` whenever `SKIP_AUTH` is not exactly the string
`"false"` — the authentication bypass is on by default when the mode
cannot be determined. -/
theorem c10_default_mode_development (e : JsEnv)
    (h1 : ∀ m, e.importMeta = some m → lookupVar m "MODE" = none)
    (h2 : ∀ m, e.processEnv = some m → lookupVar m "NODE_ENV" = none) :
    getMode e = "development" ∧
    (getEnv e "SKIP_AUTH" ≠ some "false" → shouldSkipAuth e = true) := by
  have hmode : getMode e = "development" := by
    rw [getMode]
    cases him : e.importMeta with
    | some m => simp [h1 m him, modeOrDefault]
    | none =>
        cases hpe : e.processEnv with
        | some m => simp [h2 m hpe, modeOrDefault]
        | none => simp
  refine ⟨hmode, fun hskip => ?_⟩
  simp [shouldSkipAuth, hmode, hskip]

/-- Witness for C10: an environment providing neither map at all
defaults to development mode and skips auth. -/
theorem c10_witness :
    getMode ⟨none, none⟩ = "development" ∧ shouldSkipAuth ⟨none, none⟩ = true :=
  ⟨(c10_default_mode_development ⟨none, none⟩ (by simp) (by simp)).1,
    (c10_default_mode_development ⟨none, none⟩ (by simp) (by simp)).2 (by decide)⟩

end AuthComponents
